import Mathlib

/-!
Shallow embedding of the query-and-aggregation layer of `src/mflix/db.py`
(movie-catalog application backed by a document store).

The document store itself is external: its deterministic read semantics are
modelled as pure functions over an explicit database state (`DB`).  Full-text
search matching and relevance scoring are store-internal, so they are
parameters (`StoreSem`).  Store-raised exceptions are modelled by an explicit
`Option StoreErr` input where a function catches them.
-/

/-- A movie document; only the fields the core reads are modelled.
`oid` stands for the source's `_id`, and `numReviews` for the nested
`tomatoes.viewer.numReviews` field (absent on most documents). -/
structure Movie where
  oid : Nat
  title : String
  countries : List String
  cast : List String
  genres : List String
  runtime : Option Int
  metacritic : Option Int
  numReviews : Option Int
deriving DecidableEq, Repr

/-- A comment document; `movie_id` is the foreign key to `Movie.oid`,
`date` is the comment timestamp (totally ordered). -/
structure Comment where
  oid : Nat
  movie_id : Nat
  name : String
  email : String
  text : String
  date : Int
deriving DecidableEq, Repr

/-- The database state: the `movies` and `comments` collections. -/
structure DB where
  movies : List Movie
  comments : List Comment
deriving DecidableEq, Repr

/-- The loosely-typed `filters` dictionary: each field is `some _` when the
corresponding key is present. -/
structure Filters where
  text : Option String := none
  cast : Option (List String) := none
  genres : Option (List String) := none
deriving DecidableEq, Repr

/-- The query predicate documents built by `db.py`:
`{}`, `{"$text": {"$search": q}}`, `{"cast": {"$in": names}}`,
`{"genres": {"$in": names}}`. -/
inductive Query where
  | all
  | textSearch (q : String)
  | castIn (names : List String)
  | genresIn (names : List String)
deriving DecidableEq, Repr

/-- A sort-direction value: `DESCENDING` (= -1) or `{"$meta": "textScore"}`. -/
inductive SortVal where
  | descending
  | metaTextScore
deriving DecidableEq, Repr

/-- A sort specification, a list of (field, direction) pairs. -/
abbrev SortSpec := List (String × SortVal)

/-- A projection document; the only projection the source builds is
`{"score": {"$meta": "textScore"}}`. -/
abbrev Projection := List (String × SortVal)

/-- Store-internal semantics of full-text search: which documents a `$text`
predicate matches, and their relevance score (used by `$meta: textScore`). -/
structure StoreSem where
  textMatch : String → Movie → Bool
  textScore : String → Movie → Int

/-- Evaluation of a query predicate on a movie document.  `$in` on an array
field matches when some array element is among the given names. -/
def Query.matches (S : StoreSem) : Query → Movie → Bool
  | .all, _ => true
  | .textSearch q, m => S.textMatch q m
  | .castIn names, m => m.cast.any (fun c => names.contains c)
  | .genresIn names, m => m.genres.any (fun g => names.contains g)

/-- `build_query_sort_project` (db.py lines 133-156): the filter compiler.
The `if "text" / elif "cast" / elif "genres"` chain gives the precedence
text > cast > genres; an empty or unrecognized filters dictionary yields the
match-all query, the default sort and no projection. -/
def build_query_sort_project (filters : Filters) :
    Query × SortSpec × Option Projection :=
  match filters.text, filters.cast, filters.genres with
  | some t, _, _ =>
      (Query.textSearch t, [("score", SortVal.metaTextScore)],
        some [("score", SortVal.metaTextScore)])
  | none, some c, _ =>
      (Query.castIn c, [("tomatoes.viewer.numReviews", SortVal.descending)], none)
  | none, none, some g =>
      (Query.genresIn g, [("tomatoes.viewer.numReviews", SortVal.descending)], none)
  | none, none, none =>
      (Query.all, [("tomatoes.viewer.numReviews", SortVal.descending)], none)

/-- Sort key for `tomatoes.viewer.numReviews`: a missing field sorts below
every number (so a descending sort puts undecorated documents last). -/
def nrKey (m : Movie) : WithBot Int :=
  match m.numReviews with
  | none => ⊥
  | some v => (v : WithBot Int)

/-- The descending-by-key order used to model the store's sorts. -/
def keyDescRel {α β : Type} [LinearOrder β] (key : α → β) (a b : α) : Prop :=
  key b ≤ key a

instance {α β : Type} [LinearOrder β] (key : α → β) :
    DecidableRel (keyDescRel key) :=
  fun a b => inferInstanceAs (Decidable (key b ≤ key a))

/-- The store's deterministic sort, descending by the given key. -/
def sortByKeyDesc {α β : Type} [LinearOrder β] (key : α → β) (l : List α) :
    List α :=
  List.insertionSort (keyDescRel key) l

theorem sortByKeyDesc_perm {α β : Type} [LinearOrder β] (key : α → β)
    (l : List α) : (sortByKeyDesc key l).Perm l :=
  List.perm_insertionSort _ _

theorem sortByKeyDesc_sorted {α β : Type} [LinearOrder β] (key : α → β)
    (l : List α) : (sortByKeyDesc key l).Pairwise (keyDescRel key) := by
  haveI : IsTotal α (keyDescRel key) := ⟨fun a b => le_total (key b) (key a)⟩
  haveI : IsTrans α (keyDescRel key) :=
    ⟨fun _ _ _ h1 h2 => le_trans h2 h1⟩
  exact List.sorted_insertionSort _ l

/-- Value of a named (dotted) field on a movie document, as the store's sort
sees it; only the field the source ever sorts on is populated. -/
def fieldVal (fname : String) (m : Movie) : WithBot Int :=
  if fname = "tomatoes.viewer.numReviews" then nrKey m else ⊥

/-- The `$search` string of a `$text` predicate (empty when there is none);
the `$meta: textScore` sort refers to the score of this search. -/
def queryText : Query → String
  | .textSearch t => t
  | _ => ""

/-- Execution of a cursor `sort` as the store performs it: descending by a
named field, or descending by the text relevance score of the query. -/
def execSort (S : StoreSem) (q : Query) (srt : SortSpec) (l : List Movie) :
    List Movie :=
  match srt with
  | (fname, SortVal.descending) :: _ => sortByKeyDesc (fieldVal fname) l
  | (_, SortVal.metaTextScore) :: _ =>
      sortByKeyDesc (fun m => S.textScore (queryText q) m) l
  | [] => l

/-- `count_documents(query)`: the number of documents matching a predicate. -/
def count_documents (S : StoreSem) (movies : List Movie) (q : Query) : Nat :=
  (movies.filter (q.matches S)).length

/-- The full sorted match set of the compiled predicate: what the cursor of
`get_movies` enumerates before `skip`/`limit`. -/
def allSortedMatches (S : StoreSem) (db : DB) (filters : Filters) :
    List Movie :=
  let qsp := build_query_sort_project filters
  execSort S qsp.1 qsp.2.1 (db.movies.filter (qsp.1.matches S))

/-- `get_movies` (db.py lines 159-185): compile the filters, run the find
with the compiled sort (the projection does not change which documents are
returned, only the presence of the score field, so it is not modelled on the
result), count the matches only when `page == 0` (otherwise the count slot
holds the initial value `0`), then skip `movies_per_page * page` and limit
to `movies_per_page`. -/
def get_movies (S : StoreSem) (db : DB) (filters : Filters) (page : Nat)
    (movies_per_page : Nat) : List Movie × Nat :=
  let qsp := build_query_sort_project filters
  let cursor := execSort S qsp.1 qsp.2.1 (db.movies.filter (qsp.1.matches S))
  let total_num_movies :=
    if page = 0 then count_documents S db.movies qsp.1 else 0
  let records_to_skip := movies_per_page * page
  ((cursor.drop records_to_skip).take movies_per_page, total_num_movies)

/-- A `$bucket` output key: a left boundary, or the explicit default
bucket `"other"`. -/
inductive BucketId where
  | range (lo : Int)
  | other
deriving DecidableEq, Repr

/-- `$bucket` assignment of a numeric value to the first boundary range
`[lo, hi)` that contains it; values outside every range go to the default. -/
def bucketAssignNum : List Int → Int → BucketId
  | lo :: hi :: rest, x =>
      if lo ≤ x ∧ x < hi then BucketId.range lo
      else bucketAssignNum (hi :: rest) x
  | _, _ => BucketId.other

/-- `$bucket` assignment of a document's `groupBy` value: a missing field
goes to the default bucket. -/
def bucketAssign (bs : List Int) (v : Option Int) : BucketId :=
  match v with
  | none => BucketId.other
  | some x => bucketAssignNum bs x

/-- The bucket ids of the boundary ranges, in boundary order. -/
def rangeIds : List Int → List BucketId
  | lo :: hi :: rest => BucketId.range lo :: rangeIds (hi :: rest)
  | _ => []

/-- `$bucket` with `output: {count: {$sum: 1}}`: one output document per
non-empty bucket, ranges in boundary order and the default bucket last. -/
def bucketize (bs : List Int) (vals : List (Option Int)) :
    List (BucketId × Nat) :=
  ((rangeIds bs ++ [BucketId.other]).map
      (fun i => (i, (vals.filter (fun v => bucketAssign bs v == i)).length))).filter
    (fun p => p.2 != 0)

/-- Sum of the per-bucket counts of a `$bucket` output. -/
def bucketSum (l : List (BucketId × Nat)) : Nat :=
  (l.map (fun p => p.2)).sum

/-- The single document produced by the `$facet` stage of
`get_movies_faceted`: the `runtime` and `rating` bucket lists and the
`movies` branch (whose `$addFields` of `title` by itself is the identity). -/
structure Facets where
  runtime : List (BucketId × Nat)
  rating : List (BucketId × Nat)
  movies : List Movie
deriving DecidableEq, Repr

/-- An exception raised by the store during an aggregate call:
`OperationFailure` (e.g. in-memory sort/group limits) or any other
driver/network failure. -/
inductive StoreErr where
  | operationFailure (msg : String)
  | otherFailure (msg : String)
deriving DecidableEq, Repr

/-- An exception escaping a `db.py` function. -/
inductive PyErr where
  | assertionError (msg : String)
  | operationFailure (msg : String)
  | indexError
  | storeFailure (msg : String)
deriving DecidableEq, Repr

/-- Boundaries of the `runtime` facet. -/
def runtimeBoundaries : List Int := [0, 60, 90, 120, 180]

/-- Boundaries of the `metacritic` rating facet. -/
def ratingBoundaries : List Int := [0, 50, 70, 90, 100]

/-- `get_movies_faceted` (db.py lines 65-130).  Without a `"cast"` key the
function raises `AssertionError` before touching the store.  Otherwise two
aggregations run inside one `try`: the paged pipeline
(match, sort, skip, limit, `$facet`) and the count pipeline
(match, sort, `$count`).  A store `OperationFailure` is re-raised with the
fixed message; any other store exception propagates.  `$count` emits no
document when zero documents reach it, so `list(...)[0]` raises an
uncaught `IndexError` in that case; otherwise the result is the facet
document paired with the scalar count. -/
def get_movies_faceted (S : StoreSem) (db : DB) (filters : Filters)
    (page : Nat) (movies_per_page : Nat) (storeErr : Option StoreErr) :
    Except PyErr (Facets × Nat) :=
  match filters.cast with
  | none => Except.error (PyErr.assertionError "No filters to pass to faceted search!")
  | some cs =>
    match storeErr with
    | some (StoreErr.operationFailure _) =>
        Except.error (PyErr.operationFailure
          "Results too large to sort, be more restrictive in filter")
    | some (StoreErr.otherFailure msg) =>
        Except.error (PyErr.storeFailure msg)
    | none =>
      let matched := db.movies.filter ((Query.castIn cs).matches S)
      let sorted := sortByKeyDesc nrKey matched
      let paged := (sorted.drop (movies_per_page * page)).take movies_per_page
      let facets : Facets :=
        { runtime := bucketize runtimeBoundaries (paged.map (fun m => m.runtime))
          rating := bucketize ratingBoundaries (paged.map (fun m => m.metacritic))
          movies := paged }
      match matched.length with
      | 0 => Except.error PyErr.indexError
      | n + 1 => Except.ok (facets, n + 1)

instance {ε α : Type} [DecidableEq ε] [DecidableEq α] :
    DecidableEq (Except ε α) := fun a b =>
  match a, b with
  | Except.error x, Except.error y =>
      if h : x = y then isTrue (congrArg Except.error h)
      else isFalse (fun hc => h (Except.error.inj hc))
  | Except.ok x, Except.ok y =>
      if h : x = y then isTrue (congrArg Except.ok h)
      else isFalse (fun hc => h (Except.ok.inj hc))
  | Except.error _, Except.ok _ => isFalse (fun hc => Except.noConfusion hc)
  | Except.ok _, Except.error _ => isFalse (fun hc => Except.noConfusion hc)

/-- Hexadecimal digit test for ObjectId strings. -/
def isHexChar (c : Char) : Bool :=
  c.isDigit || ('a' ≤ c && c ≤ 'f') || ('A' ≤ c && c ≤ 'F')

/-- Numeric value of a hexadecimal digit. -/
def hexVal (c : Char) : Nat :=
  if c.isDigit then c.toNat - 48
  else if 'a' ≤ c && c ≤ 'f' then c.toNat - 87
  else c.toNat - 55

/-- The ObjectId codec: a 24-character hexadecimal string decodes to the
numeric id; anything else raises `InvalidId` (modelled as `none`). -/
def parseObjectId (s : String) : Option Nat :=
  if s.length == 24 && s.data.all isHexChar then
    some (s.data.foldl (fun n c => 16 * n + hexVal c) 0)
  else none

/-- A movie document with the joined comment list embedded under the
`comments` field. -/
structure MovieWithComments where
  movie : Movie
  comments : List Comment
deriving DecidableEq, Repr

/-- The value returned by `get_movie`: a movie with embedded comments, the
Python `None` (absent), or the empty dictionary `{}` sentinel. -/
inductive GetMovieResult where
  | found (m : MovieWithComments)
  | absent
  | emptyDoc
deriving DecidableEq, Repr

/-- `get_movie` (db.py lines 188-229).  An unparseable id raises
`InvalidId`, caught together with the `StopIteration` of a zero-match
aggregate and mapped to `None`; any other store exception (modelled by the
`storeErr` flag) is caught and mapped to `{}`.  On success the matched
movie is returned with its comments (those whose `movie_id` equals the
movie's `_id`, via the `$lookup` pipeline's `$expr` equality) sorted
descending by `date` and embedded as `comments`. -/
def get_movie (db : DB) (id : String) (storeErr : Bool) : GetMovieResult :=
  match parseObjectId id with
  | none => GetMovieResult.absent
  | some oid =>
    if storeErr then GetMovieResult.emptyDoc
    else
      match (db.movies.filter (fun m => m.oid == oid)).head? with
      | none => GetMovieResult.absent
      | some m =>
          GetMovieResult.found
            { movie := m
              comments := sortByKeyDesc (fun c => c.date)
                (db.comments.filter (fun c => c.movie_id == m.oid)) }

/-- `most_active_commenters` (db.py lines 378-395): group the comments by
`email`, count each group, sort the groups descending by count, limit 20.
The group keys are the distinct emails of the corpus. -/
def most_active_commenters (db : DB) : List (String × Nat) :=
  let emails := (db.comments.map (fun c => c.email)).dedup
  let groups := emails.map
    (fun e => (e, (db.comments.filter (fun c => c.email == e)).length))
  (sortByKeyDesc (fun p => p.2) groups).take 20

/-! ### Helper lemmas -/

theorem sum_map_snd_filter_ne_zero {γ : Type} (l : List (γ × Nat)) :
    ((l.filter (fun p => p.2 != 0)).map (fun p => p.2)).sum
      = (l.map (fun p => p.2)).sum := by
  induction l with
  | nil => rfl
  | cons p l ih =>
    by_cases h : p.2 = 0
    · simp [List.filter_cons, h, ih]
    · simp [List.filter_cons, h, ih]

theorem sum_indicator_not_mem {β : Type} [DecidableEq β] (ids : List β) (b : β)
    (hb : b ∉ ids) :
    (ids.map (fun i => if b = i then (1 : Nat) else 0)).sum = 0 := by
  induction ids with
  | nil => rfl
  | cons i ids ih =>
    simp only [List.mem_cons, not_or] at hb
    simp [hb.1, ih hb.2]

theorem sum_indicator_mem {β : Type} [DecidableEq β] :
    ∀ (ids : List β), ids.Nodup → ∀ b ∈ ids,
      (ids.map (fun i => if b = i then (1 : Nat) else 0)).sum = 1 := by
  intro ids
  induction ids with
  | nil => intro _ b hb; cases hb
  | cons i ids ih =>
    intro hnd b hb
    rcases List.mem_cons.mp hb with h | h
    · subst h
      have hnotin : b ∉ ids := (List.nodup_cons.mp hnd).1
      simp [sum_indicator_not_mem ids b hnotin]
    · have hbi : b ≠ i := by
        rintro rfl
        exact (List.nodup_cons.mp hnd).1 h
      simp [hbi, ih (List.nodup_cons.mp hnd).2 b h]

theorem count_filter_cons {α β : Type} [DecidableEq β] (f : α → β) (v : α)
    (vs : List α) (i : β) :
    ((v :: vs).filter (fun w => f w == i)).length
      = (if f v = i then 1 else 0) + (vs.filter (fun w => f w == i)).length := by
  by_cases h : f v = i
  · simp [List.filter_cons, h, Nat.add_comm]
  · simp [List.filter_cons, h]

theorem sum_group_lengths {α β : Type} [DecidableEq β] :
    ∀ (vals : List α) (ids : List β) (f : α → β), ids.Nodup →
      (∀ v, v ∈ vals → f v ∈ ids) →
      (ids.map (fun i => (vals.filter (fun w => f w == i)).length)).sum
        = vals.length := by
  intro vals
  induction vals with
  | nil => intro ids f _ _; simp
  | cons v vs ih =>
    intro ids f hnd hmem
    have h1 : ids.map (fun i => ((v :: vs).filter (fun w => f w == i)).length)
        = ids.map (fun i =>
            (if f v = i then 1 else 0) + (vs.filter (fun w => f w == i)).length) :=
      List.map_congr_left (fun i _ => count_filter_cons f v vs i)
    rw [h1, List.sum_map_add,
      sum_indicator_mem ids hnd (f v) (hmem v (List.mem_cons_self v vs)),
      ih ids f hnd (fun w hw => hmem w (List.mem_cons_of_mem v hw))]
    simp [Nat.add_comm]

theorem bucketAssignNum_mem :
    ∀ (bs : List Int) (x : Int),
      bucketAssignNum bs x ∈ rangeIds bs ++ [BucketId.other]
  | [], _ => by simp [bucketAssignNum, rangeIds]
  | [b], _ => by simp [bucketAssignNum, rangeIds]
  | lo :: hi :: rest, x => by
    by_cases h : lo ≤ x ∧ x < hi
    · simp [bucketAssignNum, rangeIds, h]
    · have hrec := bucketAssignNum_mem (hi :: rest) x
      simp only [bucketAssignNum, h, if_false, rangeIds, List.cons_append]
      exact List.mem_cons_of_mem _ hrec

theorem bucketAssign_mem (bs : List Int) (v : Option Int) :
    bucketAssign bs v ∈ rangeIds bs ++ [BucketId.other] := by
  cases v with
  | none => simp [bucketAssign]
  | some x => exact bucketAssignNum_mem bs x

theorem bucketSum_bucketize (bs : List Int)
    (hnd : (rangeIds bs ++ [BucketId.other]).Nodup)
    (vals : List (Option Int)) :
    bucketSum (bucketize bs vals) = vals.length := by
  unfold bucketSum bucketize
  rw [sum_map_snd_filter_ne_zero, List.map_map]
  exact sum_group_lengths vals _ (bucketAssign bs) hnd
    (fun v _ => bucketAssign_mem bs v)

theorem flatMap_range_take_drop {α : Type} (k : Nat) (l : List α) :
    ∀ n, (List.range n).flatMap (fun p => (l.drop (k * p)).take k)
      = l.take (n * k) := by
  intro n
  induction n with
  | zero => simp
  | succ n ih =>
    rw [List.range_succ, List.flatMap_append, ih]
    have hs : (n + 1) * k = n * k + k := by ring
    rw [hs, List.take_add]
    simp [Nat.mul_comm]

theorem head?_take_pos {α : Type} (l : List α) (n : Nat) (hn : 0 < n) :
    (l.take n).head? = l.head? := by
  cases n with
  | zero => omega
  | succ m => cases l <;> simp

/-! ### Concrete fixtures used by counterexamples and witnesses -/

/-- A store semantics with trivial full-text behavior (no text queries are
issued in the concrete runs below). -/
def trivialStore : StoreSem := ⟨fun _ _ => false, fun _ _ => 0⟩

/-- A movie with runtime 70 and metacritic 55 (both in-range). -/
def movA : Movie :=
  ⟨1, "Movie A", ["USA"], ["Tom Hanks"], ["Drama"], some 70, some 55, some 10⟩

/-- A second movie with the same cast member. -/
def movB : Movie :=
  ⟨2, "Movie B", ["USA"], ["Tom Hanks"], ["Comedy"], some 100, some 95, some 5⟩

/-- A database whose two movies both match the cast filter `["Tom Hanks"]`. -/
def dbAB : DB := ⟨[movA, movB], []⟩

/-- The facet document produced by the C1 counterexample run: the page holds
one of the two matching movies, so each facet sums to 1. -/
def facAB : Facets :=
  ⟨[(BucketId.range 60, 1)], [(BucketId.range 50, 1)], [movA]⟩

/-! ### Claim theorems -/

/-- Claim C1, counterexample: the claim states that the runtime (and rating)
bucket counts sum to the total number of documents matching the cast filter.
On a database with two matching movies and a page size of one, the `$facet`
stage runs after `$skip`/`$limit`, so each facet sums to 1 while the total
match count returned alongside is 2. -/
theorem mflix_C1_counterexample :
    get_movies_faceted trivialStore dbAB ⟨none, some ["Tom Hanks"], none⟩ 0 1 none
        = Except.ok (facAB, 2) ∧
      bucketSum facAB.runtime = 1 ∧ bucketSum facAB.rating = 1 ∧ (1 : Nat) ≠ 2 := by
  decide

/-- Claim C1, amended: for every faceted search call that returns normally,
the runtime and rating bucket counts each sum to the number of documents on
the requested page (the `$facet` stage consumes the already-paged input),
while the returned total is the full match count of the cast filter. -/
theorem mflix_C1_amended (S : StoreSem) (db : DB) (f : Filters)
    (cs : List String) (page k : Nat) (fac : Facets) (total : Nat)
    (hcast : f.cast = some cs)
    (hok : get_movies_faceted S db f page k none = Except.ok (fac, total)) :
    bucketSum fac.runtime = fac.movies.length ∧
      bucketSum fac.rating = fac.movies.length ∧
      total = (db.movies.filter ((Query.castIn cs).matches S)).length := by
  simp only [get_movies_faceted, hcast] at hok
  cases hl : (db.movies.filter ((Query.castIn cs).matches S)).length with
  | zero =>
    rw [hl] at hok
    simp at hok
  | succ n =>
    rw [hl] at hok
    simp only [Except.ok.injEq, Prod.mk.injEq] at hok
    obtain ⟨hfac, htot⟩ := hok
    subst hfac
    refine ⟨?_, ?_, ?_⟩
    · rw [bucketSum_bucketize runtimeBoundaries (by decide), List.length_map]
    · rw [bucketSum_bucketize ratingBoundaries (by decide), List.length_map]
    · omega

/-- Claim C1, witness: the amended theorem evaluated on the two-movie
database with page size one. -/
theorem mflix_C1_witness :
    bucketSum facAB.runtime = facAB.movies.length ∧
      bucketSum facAB.rating = facAB.movies.length ∧
      (2 : Nat) = (dbAB.movies.filter
        ((Query.castIn ["Tom Hanks"]).matches trivialStore)).length :=
  mflix_C1_amended trivialStore dbAB ⟨none, some ["Tom Hanks"], none⟩
    ["Tom Hanks"] 0 1 facAB 2 rfl (by decide)

/-- Claim C2, counterexample: the claim says a fetch with `page ≥ 1` returns
a result whose totalCount component is absent while `page == 0` attaches the
exact count.  The code always returns an integer (0 when `page ≥ 1`), and no
injective representation of the spec's `integer | absent` type can explain
it: on an empty database, page 1 would have to decode as absent and page 0
as an attached count of 0, yet both are the same value 0. -/
theorem mflix_C2_counterexample :
    ¬ ∃ rep : Option Nat → Nat, Function.Injective rep ∧
        ∀ (S : StoreSem) (db : DB) (f : Filters) (page k : Nat),
          (get_movies S db f page k).2
            = rep (if page = 0
                then some (count_documents S db.movies (build_query_sort_project f).1)
                else none) := by
  rintro ⟨rep, hinj, h⟩
  have e0 : rep (some 0) = 0 := by
    have h0 := h trivialStore ⟨[], []⟩ ⟨none, none, none⟩ 0 1
    simpa [get_movies, count_documents] using h0.symm
  have e1 : rep none = 0 := by
    have h1 := h trivialStore ⟨[], []⟩ ⟨none, none, none⟩ 1 1
    simpa [get_movies] using h1.symm
  exact Option.noConfusion (hinj (e0.trans e1.symm))

/-- Claim C2, amended: for `page == 0` the result carries the exact count of
the documents matching the compiled predicate; for `page ≥ 1` the count slot
holds the constant 0 (a present integer sentinel, indistinguishable from an
attached count of zero), not a genuinely absent value. -/
theorem mflix_C2_amended (S : StoreSem) (db : DB) (f : Filters)
    (page k : Nat) :
    (page = 0 → (get_movies S db f page k).2
        = (db.movies.filter ((build_query_sort_project f).1.matches S)).length) ∧
      (1 ≤ page → (get_movies S db f page k).2 = 0) := by
  constructor
  · rintro rfl
    rfl
  · intro hp
    have hp0 : page ≠ 0 := by omega
    simp [get_movies, hp0]

/-- Claim C2, witness: the amended theorem on the two-movie database, pages
0 and 1. -/
theorem mflix_C2_witness :
    (get_movies trivialStore dbAB ⟨none, none, none⟩ 0 5).2
        = (dbAB.movies.filter
            ((build_query_sort_project ⟨none, none, none⟩).1.matches trivialStore)).length ∧
      (get_movies trivialStore dbAB ⟨none, none, none⟩ 1 5).2 = 0 :=
  ⟨(mflix_C2_amended trivialStore dbAB ⟨none, none, none⟩ 0 5).1 rfl,
   (mflix_C2_amended trivialStore dbAB ⟨none, none, none⟩ 1 5).2 (by decide)⟩

/-- Claim C3, counterexample: the claim says an empty-or-absent cast filter
triggers the assertion failure.  A present-but-empty cast list passes the
`"cast" in filters` test, so no assertion is raised: the call proceeds,
matches zero documents, and dies with `IndexError` from the count pipeline
instead. -/
theorem mflix_C3_counterexample :
    get_movies_faceted trivialStore dbAB ⟨none, some [], none⟩ 0 1 none
        = Except.error PyErr.indexError ∧
      PyErr.indexError
        ≠ PyErr.assertionError "No filters to pass to faceted search!" := by
  decide

/-- Claim C3, amended: the assertion failure is raised exactly when the cast
key is absent; with the key present (even with an empty name list) the
assertion is never raised. -/
theorem mflix_C3_amended (S : StoreSem) (db : DB) (f : Filters)
    (page k : Nat) (e : Option StoreErr) :
    (f.cast = none → get_movies_faceted S db f page k e
        = Except.error (PyErr.assertionError "No filters to pass to faceted search!")) ∧
      (∀ cs msg, f.cast = some cs →
        get_movies_faceted S db f page k e
          ≠ Except.error (PyErr.assertionError msg)) := by
  constructor
  · intro hnone
    simp [get_movies_faceted, hnone]
  · intro cs msg hcast
    simp only [get_movies_faceted, hcast]
    rcases e with _ | sErr
    · cases hl : (db.movies.filter ((Query.castIn cs).matches S)).length <;> simp
    · cases sErr <;> simp

/-- Claim C3, witness: the amended theorem on the two-movie database, once
with the cast key absent and once with it present. -/
theorem mflix_C3_witness :
    get_movies_faceted trivialStore dbAB ⟨none, none, none⟩ 0 1 none
        = Except.error (PyErr.assertionError "No filters to pass to faceted search!") ∧
      get_movies_faceted trivialStore dbAB ⟨none, some ["Tom Hanks"], none⟩ 0 1 none
        ≠ Except.error (PyErr.assertionError "nope") :=
  ⟨(mflix_C3_amended trivialStore dbAB ⟨none, none, none⟩ 0 1 none).1 rfl,
   (mflix_C3_amended trivialStore dbAB ⟨none, some ["Tom Hanks"], none⟩ 0 1 none).2
     ["Tom Hanks"] "nope" rfl⟩

/-- Claim C4: an unparseable identifier or a zero-match lookup both return
the absent value (the function is total, so it never raises), the two causes
being mapped to the identical value; any other store failure returns the
present-but-empty sentinel, which is distinct from absent. -/
theorem mflix_C4 (db : DB) (id : String) (e : Bool) :
    (parseObjectId id = none → get_movie db id e = GetMovieResult.absent) ∧
      (∀ oid, parseObjectId id = some oid → e = false →
        (db.movies.filter (fun m => m.oid == oid)).head? = none →
        get_movie db id e = GetMovieResult.absent) ∧
      (∀ oid, parseObjectId id = some oid → e = true →
        get_movie db id e = GetMovieResult.emptyDoc) ∧
      GetMovieResult.emptyDoc ≠ GetMovieResult.absent := by
  refine ⟨?_, ?_, ?_, by decide⟩
  · intro hp
    simp [get_movie, hp]
  · intro oid hp he hh
    subst he
    simp [get_movie, hp, hh]
  · intro oid hp he
    subst he
    simp [get_movie, hp]

/-- A database for the `get_movie` runs: one movie (id 1) owning three
comments dated 2020-01-01, 2020-06-01 and 2019-01-01 (encoded yyyymmdd),
plus a comment of an unrelated movie. -/
def dbJoin : DB :=
  ⟨[movA],
   [⟨1, 1, "Ann", "ann@example.com", "first", 20200101⟩,
    ⟨2, 1, "Bob", "bob@example.com", "second", 20200601⟩,
    ⟨3, 1, "Cid", "cid@example.com", "third", 20190101⟩,
    ⟨4, 2, "Dee", "dee@example.com", "stray", 20300101⟩]⟩

/-- Claim C4, witness: an unparseable id, a parseable id with no matching
movie, and a store failure, all on the join database. -/
theorem mflix_C4_witness :
    get_movie dbJoin "not-a-valid-id" false = GetMovieResult.absent ∧
      get_movie dbJoin "00000000000000000000000f" false = GetMovieResult.absent ∧
      get_movie dbJoin "00000000000000000000000f" true = GetMovieResult.emptyDoc :=
  ⟨(mflix_C4 dbJoin "not-a-valid-id" false).1 (by decide),
   (mflix_C4 dbJoin "00000000000000000000000f" false).2.1 15 (by decide) rfl (by decide),
   (mflix_C4 dbJoin "00000000000000000000000f" true).2.2.1 15 (by decide) rfl⟩

/-- Claim C5: fetching an existing movie embeds, under the `comments` field,
exactly the comments whose `movie_id` equals the movie's id (a permutation
of that filtered set), sorted descending by date. -/
theorem mflix_C5 (db : DB) (id : String) (oid : Nat) (m : Movie)
    (hid : parseObjectId id = some oid)
    (hm : (db.movies.filter (fun mv => mv.oid == oid)).head? = some m) :
    ∃ mwc, get_movie db id false = GetMovieResult.found mwc ∧
      mwc.movie = m ∧
      mwc.comments.Perm (db.comments.filter (fun c => c.movie_id == m.oid)) ∧
      mwc.comments.Pairwise (fun c1 c2 => c2.date ≤ c1.date) := by
  refine ⟨{ movie := m,
            comments := sortByKeyDesc (fun c => c.date)
              (db.comments.filter (fun c => c.movie_id == m.oid)) },
    ?_, rfl, sortByKeyDesc_perm _ _, sortByKeyDesc_sorted _ _⟩
  simp [get_movie, hid, hm]

/-- Claim C5, witness: on the join database the three comments of movie 1
come back newest-first — dated 2020-06-01, 2020-01-01, 2019-01-01 — and the
stray comment of another movie is excluded. -/
theorem mflix_C5_witness :
    (∃ mwc, get_movie dbJoin "000000000000000000000001" false
        = GetMovieResult.found mwc ∧
      mwc.movie = movA ∧
      mwc.comments.Perm (dbJoin.comments.filter (fun c => c.movie_id == movA.oid)) ∧
      mwc.comments.Pairwise (fun c1 c2 => c2.date ≤ c1.date)) ∧
    get_movie dbJoin "000000000000000000000001" false
        = GetMovieResult.found
            ⟨movA,
             [⟨2, 1, "Bob", "bob@example.com", "second", 20200601⟩,
              ⟨1, 1, "Ann", "ann@example.com", "first", 20200101⟩,
              ⟨3, 1, "Cid", "cid@example.com", "third", 20190101⟩]⟩ :=
  ⟨mflix_C5 dbJoin "000000000000000000000001" 1 movA (by decide) (by decide),
   by decide⟩

/-- Claim C6: the filter compiler resolves ambiguous input by the fixed
precedence text > cast > genres: the first present key alone determines the
whole compiled triple (removing the ignored keys leaves the output
unchanged), and the compiled predicate is the one of the winning key. -/
theorem mflix_C6 (f : Filters) :
    (∀ t, f.text = some t →
      build_query_sort_project f = build_query_sort_project ⟨some t, none, none⟩) ∧
      (∀ cs, f.text = none → f.cast = some cs →
        build_query_sort_project f = build_query_sort_project ⟨none, some cs, none⟩) ∧
      (∀ gs, f.text = none → f.cast = none → f.genres = some gs →
        build_query_sort_project f = build_query_sort_project ⟨none, none, some gs⟩) ∧
      (∀ t, f.text = some t →
        (build_query_sort_project f).1 = Query.textSearch t) ∧
      (∀ cs, f.text = none → f.cast = some cs →
        (build_query_sort_project f).1 = Query.castIn cs) ∧
      (∀ gs, f.text = none → f.cast = none → f.genres = some gs →
        (build_query_sort_project f).1 = Query.genresIn gs) := by
  obtain ⟨ot, oc, og⟩ := f
  refine ⟨fun t ht => ?_, fun cs h1 h2 => ?_, fun gs h1 h2 h3 => ?_,
    fun t ht => ?_, fun cs h1 h2 => ?_, fun gs h1 h2 h3 => ?_⟩ <;>
    simp_all [build_query_sort_project]

/-- Claim C6, witness: filters carrying all three keys compile exactly as
text-only filters, to a text-search predicate. -/
theorem mflix_C6_witness :
    build_query_sort_project ⟨some "love", some ["Tom Hanks"], some ["Drama"]⟩
        = build_query_sort_project ⟨some "love", none, none⟩ ∧
      (build_query_sort_project ⟨some "love", some ["Tom Hanks"], some ["Drama"]⟩).1
        = Query.textSearch "love" :=
  ⟨(mflix_C6 ⟨some "love", some ["Tom Hanks"], some ["Drama"]⟩).1 "love" rfl,
   (mflix_C6 ⟨some "love", some ["Tom Hanks"], some ["Drama"]⟩).2.2.2.1 "love" rfl⟩

/-- Claim C7: when the store raises its resource-limit failure during the
faceted fan-out, the function re-signals the fixed "be more restrictive"
message whatever the store's own message was, and that error is distinct
from the generic store-failure shape, while any other store failure
propagates with its message unchanged. -/
theorem mflix_C7 (S : StoreSem) (db : DB) (f : Filters) (cs : List String)
    (page k : Nat) (hcast : f.cast = some cs) :
    (∀ msg, get_movies_faceted S db f page k (some (StoreErr.operationFailure msg))
        = Except.error (PyErr.operationFailure
            "Results too large to sort, be more restrictive in filter")) ∧
      (∀ msg, get_movies_faceted S db f page k (some (StoreErr.otherFailure msg))
          = Except.error (PyErr.storeFailure msg)) ∧
      (∀ msg, PyErr.operationFailure
          "Results too large to sort, be more restrictive in filter"
          ≠ PyErr.storeFailure msg) := by
  refine ⟨fun msg => ?_, fun msg => ?_, fun msg h => ?_⟩
  · simp [get_movies_faceted, hcast]
  · simp [get_movies_faceted, hcast]
  · exact PyErr.noConfusion h

/-- Claim C7, witness: both failure modes on the two-movie database. -/
theorem mflix_C7_witness :
    get_movies_faceted trivialStore dbAB ⟨none, some ["Tom Hanks"], none⟩ 0 1
        (some (StoreErr.operationFailure "sort exceeded memory limit"))
        = Except.error (PyErr.operationFailure
            "Results too large to sort, be more restrictive in filter") ∧
      get_movies_faceted trivialStore dbAB ⟨none, some ["Tom Hanks"], none⟩ 0 1
          (some (StoreErr.otherFailure "network reset"))
        = Except.error (PyErr.storeFailure "network reset") :=
  ⟨(mflix_C7 trivialStore dbAB ⟨none, some ["Tom Hanks"], none⟩ ["Tom Hanks"] 0 1 rfl).1
      "sort exceeded memory limit",
   (mflix_C7 trivialStore dbAB ⟨none, some ["Tom Hanks"], none⟩ ["Tom Hanks"] 0 1 rfl).2.1
      "network reset"⟩

/-- Claim C10: with the cast key present but matching zero documents, and
the store itself succeeding, the `$count` pipeline yields no documents and
the function fails with the uncaught `IndexError` from `list(...)[0]`
instead of returning a zero-count facet result. -/
theorem mflix_C10 (S : StoreSem) (db : DB) (f : Filters) (cs : List String)
    (page k : Nat) (hcast : f.cast = some cs)
    (hempty : db.movies.filter ((Query.castIn cs).matches S) = []) :
    get_movies_faceted S db f page k none = Except.error PyErr.indexError := by
  simp [get_movies_faceted, hcast, hempty]

/-- Claim C10, witness: a non-empty database where no movie matches the
requested cast name. -/
theorem mflix_C10_witness :
    get_movies_faceted trivialStore dbAB ⟨none, some ["Nobody"], none⟩ 0 1 none
        = Except.error PyErr.indexError :=
  mflix_C10 trivialStore dbAB ⟨none, some ["Nobody"], none⟩ ["Nobody"] 0 1 rfl
    (by decide)

/-- A movie with no cast, no runtime, no rating and no review count. -/
def movC : Movie := ⟨3, "Movie C", [], [], [], none, none, none⟩

/-- A three-movie database for the pagination witness. -/
def dbABC : DB := ⟨[movA, movB, movC], []⟩

/-- Claim C8: over a fixed document set, for every filter intent and every
positive page size, concatenating the movie pages in order reproduces
exactly the full sorted match set of the compiled predicate — no duplicated
and no missing documents. -/
theorem mflix_C8 (S : StoreSem) (db : DB) (f : Filters) (k n : Nat)
    (hk : 0 < k) (hn : (allSortedMatches S db f).length ≤ n * k) :
    (List.range n).flatMap (fun p => (get_movies S db f p k).1)
      = allSortedMatches S db f := by
  have hk' : 0 < k := hk
  have h1 : ∀ p, (get_movies S db f p k).1
      = ((allSortedMatches S db f).drop (k * p)).take k := fun _ => rfl
  calc (List.range n).flatMap (fun p => (get_movies S db f p k).1)
      = (List.range n).flatMap
          (fun p => ((allSortedMatches S db f).drop (k * p)).take k) := by
        simp only [h1]
    _ = (allSortedMatches S db f).take (n * k) :=
        flatMap_range_take_drop k (allSortedMatches S db f) n
    _ = allSortedMatches S db f := List.take_of_length_le hn

/-- Claim C8, witness: three matching movies, page size two, two pages. -/
theorem mflix_C8_witness :
    (List.range 2).flatMap
        (fun p => (get_movies trivialStore dbABC ⟨none, none, none⟩ p 2).1)
      = allSortedMatches trivialStore dbABC ⟨none, none, none⟩ :=
  mflix_C8 trivialStore dbABC ⟨none, none, none⟩ 2 2 (by decide) (by decide)

/-- Claim C9: every listed pair of the commenter ranking carries the exact
number of comments authored by that email; the list is sorted descending by
count and truncated to 20; and an email whose count strictly dominates every
other email's count heads the list, paired with that count. -/
theorem mflix_C9 (db : DB) (e : String) (c : Nat)
    (hc : (db.comments.filter (fun cm => cm.email == e)).length = c)
    (hpos : 0 < c)
    (hdom : ∀ e', e' ∈ db.comments.map (fun cm => cm.email) → e' ≠ e →
      (db.comments.filter (fun cm => cm.email == e')).length < c) :
    (∀ p ∈ most_active_commenters db,
        p.2 = (db.comments.filter (fun cm => cm.email == p.1)).length) ∧
      (most_active_commenters db).Pairwise
        (fun p q : String × Nat => q.2 ≤ p.2) ∧
      (most_active_commenters db).length ≤ 20 ∧
      (most_active_commenters db).head? = some (e, c) := by
  set emails := (db.comments.map (fun cm => cm.email)).dedup with hemails
  set groups := emails.map
      (fun e' => (e', (db.comments.filter (fun cm => cm.email == e')).length))
    with hgroups
  set sorted := sortByKeyDesc (fun p : String × Nat => p.2) groups with hsorted
  have hmac : most_active_commenters db = sorted.take 20 := rfl
  have hperm : sorted.Perm groups := sortByKeyDesc_perm _ _
  have hpw : sorted.Pairwise (fun p q : String × Nat => q.2 ≤ p.2) :=
    sortByKeyDesc_sorted _ _
  have hmem_groups : ∀ p : String × Nat, p ∈ groups →
      p.2 = (db.comments.filter (fun cm => cm.email == p.1)).length := by
    intro p hp
    obtain ⟨e', _, rfl⟩ := List.mem_map.mp hp
    rfl
  have he_mem : e ∈ emails := by
    have h0 : 0 < (db.comments.filter (fun cm => cm.email == e)).length := by
      omega
    obtain ⟨x, hx⟩ := List.exists_mem_of_length_pos h0
    obtain ⟨hx1, hx2⟩ := List.mem_filter.mp hx
    exact List.mem_dedup.mpr (List.mem_map.mpr ⟨x, hx1, beq_iff_eq.mp hx2⟩)
  have hec_mem : (e, c) ∈ groups := List.mem_map.mpr ⟨e, he_mem, by rw [hc]⟩
  refine ⟨?_, ?_, ?_, ?_⟩
  · intro p hp
    rw [hmac] at hp
    exact hmem_groups p (hperm.mem_iff.mp (List.take_subset _ _ hp))
  · rw [hmac]
    exact List.Pairwise.sublist (List.take_sublist _ _) hpw
  · rw [hmac]
    exact List.length_take_le _ _
  · cases hs : sorted with
    | nil =>
      exfalso
      have hin : (e, c) ∈ sorted := hperm.mem_iff.mpr hec_mem
      rw [hs] at hin
      cases hin
    | cons p0 rest =>
      have hhead : (most_active_commenters db).head? = some p0 := by
        rw [hmac, head?_take_pos _ 20 (by omega), hs]
        rfl
      have hp0g : p0 ∈ groups := by
        refine hperm.mem_iff.mp ?_
        rw [hs]
        exact List.mem_cons_self p0 rest
      obtain ⟨e0, he0, hp0eq⟩ := List.mem_map.mp hp0g
      by_cases hee : e0 = e
      · subst hee
        rw [hhead, ← hp0eq, hc]
      · exfalso
        have he0map : e0 ∈ db.comments.map (fun cm => cm.email) :=
          List.mem_dedup.mp he0
        have hlt : (db.comments.filter (fun cm => cm.email == e0)).length < c :=
          hdom e0 he0map hee
        have hin : (e, c) ∈ p0 :: rest := by
          rw [← hs]
          exact hperm.mem_iff.mpr hec_mem
        rcases List.mem_cons.mp hin with heq | hrest
        · have : e = e0 := by
            have := congrArg Prod.fst heq.symm
            rw [← hp0eq] at this
            exact this.symm
          exact hee this.symm
        · have hle : c ≤ p0.2 := by
            have hpw' := hs ▸ hpw
            have := (List.pairwise_cons.mp hpw').1 (e, c) hrest
            simpa using this
          rw [← hp0eq] at hle
          omega

/-- A comment corpus where `a@x.com` authored three comments and `b@x.com`
one. -/
def dbTop : DB :=
  ⟨[],
   [⟨1, 1, "Ann", "a@x.com", "t1", 1⟩,
    ⟨2, 1, "Ann", "a@x.com", "t2", 2⟩,
    ⟨3, 2, "Ann", "a@x.com", "t3", 3⟩,
    ⟨4, 1, "Bob", "b@x.com", "t4", 4⟩]⟩

/-- Claim C9, witness: on the corpus above the dominant email heads the
ranking with its exact count. -/
theorem mflix_C9_witness :
    (∀ p ∈ most_active_commenters dbTop,
        p.2 = (dbTop.comments.filter (fun cm => cm.email == p.1)).length) ∧
      (most_active_commenters dbTop).Pairwise
        (fun p q : String × Nat => q.2 ≤ p.2) ∧
      (most_active_commenters dbTop).length ≤ 20 ∧
      (most_active_commenters dbTop).head? = some ("a@x.com", 3) :=
  mflix_C9 dbTop "a@x.com" 3 (by decide) (by decide) (by decide)
